import Mathlib

set_option maxRecDepth 100000

/-!
Verification of `segmentation_utils.py` (Colour-Segmentation repository).

The Python module is shallowly embedded below.  Pixel buffers are modelled
as dimensioned grids of natural-number samples (uint8 values), OpenCV
primitives used by the module (`cvtColor`, `inRange`, `morphologyEx`,
`bitwise_and`, `resize`, `imread`) are modelled at the level the source
relies on, Python exceptions are modelled with an `Except` monad over an
error type mirroring the exception classes the source raises, and the
filesystem queried by `os.path` is an explicit record of boolean oracles.
-/

/-- Embeds `get_valid_kernel_size` (segmentation_utils.py line 24):
`return max(1, value | 1)`.  Python's `|` on `int` is two's-complement
bitwise or, which `Int.lor` implements. -/
def get_valid_kernel_size (value : Int) : Int :=
  max 1 (Int.lor value 1)

/-- A 3-channel pixel buffer (numpy uint8 array of shape h × w × 3).
Channel order is B, G, R as produced by OpenCV decoding.  `data` is total;
only coordinates below `h` and `w` are meaningful. -/
structure Img3 where
  h : Nat
  w : Nat
  data : Nat → Nat → Nat × Nat × Nat

/-- A single-channel pixel buffer (numpy uint8 array of shape h × w),
as produced by `cv2.inRange`. -/
structure Img1 where
  h : Nat
  w : Nat
  data : Nat → Nat → Nat

/-- Per-pixel BGR→HSV conversion of the external `cv2.cvtColor(·,
cv2.COLOR_BGR2HSV)` used at segmentation_utils.py line 198.  Modelled from
the spec: the standard 8-bit OpenCV transform (V = max channel,
S = 255·(V−min)/V, H on the 0–179 half-degree scale), with the library's
float rounding modelled by integer division. -/
def bgr2hsv_pixel (p : Nat × Nat × Nat) : Nat × Nat × Nat :=
  let b := p.1
  let g := p.2.1
  let r := p.2.2
  let v := max r (max g b)
  let mn := min r (min g b)
  let diff := v - mn
  let s := if v = 0 then 0 else 255 * diff / v
  let h6 : Int :=
    if diff = 0 then 0
    else if v = r then 60 * ((g : Int) - (b : Int)) / (diff : Int)
    else if v = g then 120 + 60 * ((b : Int) - (r : Int)) / (diff : Int)
    else 240 + 60 * ((r : Int) - (g : Int)) / (diff : Int)
  let h360 : Int := if h6 < 0 then h6 + 360 else h6
  ((h360 / 2).toNat, s, v)

/-- Whole-buffer BGR→HSV conversion (`cv2.cvtColor`, line 198). -/
def cvtColor_BGR2HSV (img : Img3) : Img3 :=
  ⟨img.h, img.w, fun y x => bgr2hsv_pixel (img.data y x)⟩

/-- The external `cv2.inRange(hsv, lower_bound, upper_bound)` call at
segmentation_utils.py line 199: per pixel, 255 when every channel lies in
the inclusive range, else 0.  Bounds are the integer triples produced by
`get_trackbar_values`. -/
def inRange (hsv : Img3) (lo hi : Int × Int × Int) : Img1 :=
  ⟨hsv.h, hsv.w, fun y x =>
    let p := hsv.data y x
    if lo.1 ≤ (p.1 : Int) ∧ (p.1 : Int) ≤ hi.1 ∧
       lo.2.1 ≤ (p.2.1 : Int) ∧ (p.2.1 : Int) ≤ hi.2.1 ∧
       lo.2.2 ≤ (p.2.2 : Int) ∧ (p.2.2 : Int) ≤ hi.2.2
    then 255 else 0⟩

/-- In-bounds neighbourhood of (y, x) under a k × k all-ones structuring
element anchored at its centre (k / 2, k / 2), as used by `cv2.erode` /
`cv2.dilate`; out-of-image taps take the morphological border value and so
drop out of the min/max. -/
def nbhd (k h w y x : Nat) : List (Nat × Nat) :=
  ((List.range k).flatMap fun dy =>
    (List.range k).map fun dx =>
      ((y : Int) + dy - (k / 2 : Nat), (x : Int) + dx - (k / 2 : Nat))).filterMap
    fun q =>
      if 0 ≤ q.1 ∧ q.1 < (h : Int) ∧ 0 ≤ q.2 ∧ q.2 < (w : Int)
      then some (q.1.toNat, q.2.toNat) else none

/-- Erosion of a uint8 mask by a k × k all-ones kernel: neighbourhood
minimum (255 is the uint8 top, matching the +∞ border value). -/
def erode (m : Img1) (k : Nat) : Img1 :=
  ⟨m.h, m.w, fun y x =>
    ((nbhd k m.h m.w y x).map fun q => m.data q.1 q.2).foldl min 255⟩

/-- Dilation of a uint8 mask by a k × k all-ones kernel: neighbourhood
maximum (0 is the uint8 bottom, matching the −∞ border value). -/
def dilate (m : Img1) (k : Nat) : Img1 :=
  ⟨m.h, m.w, fun y x =>
    ((nbhd k m.h m.w y x).map fun q => m.data q.1 q.2).foldl max 0⟩

/-- `cv2.morphologyEx(mask, cv2.MORPH_OPEN, kernel)` (line 203): erosion
followed by dilation. -/
def morphOpen (m : Img1) (k : Nat) : Img1 :=
  dilate (erode m k) k

/-- `cv2.morphologyEx(mask, cv2.MORPH_CLOSE, kernel)` (line 204): dilation
followed by erosion. -/
def morphClose (m : Img1) (k : Nat) : Img1 :=
  erode (dilate m k) k

/-- The external `cv2.bitwise_and(src1, src2, mask=mask)` call at
segmentation_utils.py line 206: where the mask sample is nonzero the
destination gets the bitwise and of the two sources, elsewhere it stays at
its zero initialisation. -/
def bitwise_and_masked (a b : Img3) (mask : Img1) : Img3 :=
  ⟨a.h, a.w, fun y x =>
    if mask.data y x ≠ 0 then
      (Nat.land (a.data y x).1 (b.data y x).1,
       Nat.land (a.data y x).2.1 (b.data y x).2.1,
       Nat.land (a.data y x).2.2 (b.data y x).2.2)
    else (0, 0, 0)⟩

/-- Embeds `apply_mask` (segmentation_utils.py lines 185–207): BGR→HSV,
range thresholding, optional opening-then-closing when `kernel_size > 1`,
and composition of the result through the mask. -/
def apply_mask (image : Img3) (lower_bound upper_bound : Int × Int × Int)
    (kernel_size : Int) : Img1 × Img3 :=
  let hsv := cvtColor_BGR2HSV image
  let mask0 := inRange hsv lower_bound upper_bound
  let mask :=
    if 1 < kernel_size then
      morphClose (morphOpen mask0 kernel_size.toNat) kernel_size.toNat
    else mask0
  let result := bitwise_and_masked image image mask
  (mask, result)

/-- Embeds the normalisation step of `get_trackbar_values`
(segmentation_utils.py lines 180–183).  The six raw readings come from the
external trackbar state; the function body below is the pure min/max step
that builds the lower and upper bound triples. -/
def get_trackbar_values (l_h l_s l_v u_h u_s u_v : Int) :
    (Int × Int × Int) × (Int × Int × Int) :=
  ((min l_h u_h, min l_s u_s, min l_v u_v),
   (max l_h u_h, max l_s u_s, max l_v u_v))

/-- The model of `cv2.resize(image, dim, interpolation=inter)` used at
segmentation_utils.py line 71.  Modelled from the spec: the external
resampler returns a buffer of exactly the requested `(width, height)`
dimensions; the interpolated sample values themselves are modelled by
coordinate scaling, since every claim in scope depends only on the output
dimensions (`dim` is `(width, height)` in OpenCV order). -/
def cv2resize (img : Img3) (width height : Nat) : Img3 :=
  ⟨height, width, fun y x => img.data (y * img.h / height) (x * img.w / width)⟩

/-- Round the rational num/den to the nearest integer, ties to even —
the IEEE 754 default rounding applied to a mantissa quotient. -/
def roundHalfEven (num den : Nat) : Nat :=
  let q := num / den
  let r := num % den
  if 2 * r < den then q
  else if den < 2 * r then q + 1
  else if q % 2 = 0 then q else q + 1

/-- Fuel-driven binary length of a natural number (the fuel starts at the
number itself, which always suffices). -/
def bitLenAux : Nat → Nat → Nat
  | 0, _ => 0
  | fuel + 1, n => if n = 0 then 0 else bitLenAux fuel (n / 2) + 1

/-- Number of binary digits of a natural number; `bitLen n - 1` is the
floor of log₂ n for positive n. -/
def bitLen (n : Nat) : Nat :=
  bitLenAux n n

/-- Round the positive rational num/den to an IEEE 754 binary64 value,
represented exactly as a normalised dyadic pair (m, e) of value m·2^e with
2^52 ≤ m < 2^53 (or (0, 0) for zero): the rounding step every double
operation performs.  Exponent overflow and subnormals are outside the range
any pixel geometry reaches and are not modelled. -/
def ratToDyadic (num den : Nat) : Nat × Int :=
  if num = 0 then (0, 0)
  else
    let ln := bitLen num - 1
    let ld := bitLen den - 1
    let e : Int :=
      if den * 2 ^ ln ≤ num * 2 ^ ld then (ln : Int) - ld else (ln : Int) - ld - 1
    let s : Int := 52 - e
    let m :=
      if 0 ≤ s then roundHalfEven (num * 2 ^ s.toNat) den
      else roundHalfEven num (den * 2 ^ (-s).toNat)
    if m = 2 ^ 53 then (2 ^ 52, e - 51) else (m, e - 52)

/-- Python's `float(n)` on a non-negative int: exact below 2^53, rounded to
nearest-even above. -/
def natToDyadic (n : Nat) : Nat × Int :=
  ratToDyadic n 1

/-- IEEE binary64 division of two dyadic values: one correctly rounded
quotient. -/
def dyDiv (x y : Nat × Int) : Nat × Int :=
  let r := ratToDyadic x.1 y.1
  (r.1, r.2 + x.2 - y.2)

/-- IEEE binary64 multiplication of two dyadic values: the exact mantissa
product, correctly rounded once. -/
def dyMul (x y : Nat × Int) : Nat × Int :=
  let r := ratToDyadic (x.1 * y.1) 1
  (r.1, r.2 + x.2 + y.2)

/-- Python's `int(x)` on a non-negative double: truncation toward zero. -/
def truncToNat (x : Nat × Int) : Nat :=
  if 0 ≤ x.2 then x.1 * 2 ^ x.2.toNat else x.1 / 2 ^ (-x.2).toNat

/-- The scaled dimension `int(a * (b / float(c)))` of
segmentation_utils.py lines 65–66 and 68–69, computed exactly as CPython
does: convert to binary64, one rounded division, one rounded
multiplication, then truncate.  `c = 0` raises `ZeroDivisionError` in
Python and is excluded by hypothesis wherever this is reasoned about. -/
def pyScaled (a b c : Nat) : Nat :=
  truncToNat (dyMul (natToDyadic a) (dyDiv (natToDyadic b) (natToDyadic c)))

/-- Embeds `resize_with_aspect_ratio` (segmentation_utils.py lines 45–71).
The three-way branch mirrors the source: both dimensions absent returns the
input; `width` absent scales from `height`; otherwise — whether or not
`height` was also supplied — the ratio comes from `width` alone and the new
height is `int(h * r)` with `r = width / float(w)`, computed in IEEE
binary64 arithmetic via `pyScaled`. -/
def resize_with_aspect_ratio (image : Img3) (width height : Option Nat) : Img3 :=
  match width, height with
  | none, none => image
  | none, some hh => cv2resize image (pyScaled image.w hh image.h) hh
  | some ww, _ => cv2resize image ww (pyScaled image.h ww image.w)

/-- Python exception classes raised by the module, each carrying the
offending path (the formatted message text is not modelled). -/
inductive PyError where
  | fileNotFound (path : String)
  | valueError (path : String)
  | permissionError (path : String)
  | runtimeError (path : String)
deriving DecidableEq, Repr

/-- The filesystem / decoder oracles behind `os.path.exists`,
`os.path.isfile`, `os.access(·, os.R_OK)` and `cv2.imread` (which returns
`None` on decode failure). -/
structure FS where
  pathExists : String → Bool
  isfile : String → Bool
  readable : String → Bool
  imread : String → Option Img3

/-- `os.path.join` on a POSIX system, as used at lines 88 and 119. -/
def joinPath (d p : String) : String :=
  d ++ "/" ++ p

/-- Embeds `check_file_access` (segmentation_utils.py lines 26–43):
existence, regular-file and readability checks, in that order. -/
def check_file_access (fs : FS) (file_path : String) : Except PyError Unit :=
  if ¬ fs.pathExists file_path then .error (.fileNotFound file_path)
  else if ¬ fs.isfile file_path then .error (.valueError file_path)
  else if ¬ fs.readable file_path then .error (.permissionError file_path)
  else .ok ()

/-- The tuple of valid image extensions (segmentation_utils.py line 91). -/
def valid_extensions : List String :=
  [".jpg", ".jpeg", ".png", ".bmp", ".tiff", ".webp"]

/-- ASCII lowercasing of one character, as `str.lower` does on ASCII
paths. -/
def pyLowerChar (c : Char) : Char :=
  if 65 ≤ c.toNat ∧ c.toNat ≤ 90 then Char.ofNat (c.toNat + 32) else c

/-- `str.lower()` on an ASCII path. -/
def pyLower (s : String) : String :=
  ⟨s.data.map pyLowerChar⟩

/-- `str.endswith(e)`: the characters of `e` are a suffix of those of
`s`. -/
def strEndsWith (s e : String) : Bool :=
  s.data.drop (s.data.length - e.data.length) == e.data

/-- `image_path.lower().endswith(valid_extensions)` (line 92). -/
def hasValidImageExt (p : String) : Bool :=
  valid_extensions.any fun e => strEndsWith (pyLower p) e

/-- numpy's `img.size` for a decoded 3-channel image: h · w · 3, used in
the `img.size == 0` test at line 97. -/
def npSize (img : Img3) : Nat :=
  img.h * img.w * 3

/-- The body of the `try:` block of `load_image` (lines 95–100): decode,
reject a `None` or zero-size result with `ValueError`, then resize to the
fixed working width 512. -/
def load_image_try (fs : FS) (image_path : String) : Except PyError Img3 :=
  match fs.imread image_path with
  | none => .error (.valueError image_path)
  | some img =>
    if npSize img = 0 then .error (.valueError image_path)
    else .ok (resize_with_aspect_ratio img (some 512) none)

/-- Embeds `load_image` (segmentation_utils.py lines 73–102): prefix the
images root, run `check_file_access`, reject unsupported extensions with
`ValueError`, then run the `try:` block; the `except Exception` handler at
line 101 catches every exception raised inside the block — including the
`ValueError` deliberately raised for decode failures — and re-raises it as
`RuntimeError`. -/
def load_image (fs : FS) (image_path : String) : Except PyError Img3 :=
  let path := joinPath "images" image_path
  match check_file_access fs path with
  | .error e => .error e
  | .ok _ =>
    if ¬ hasValidImageExt path then .error (.valueError path)
    else
      match load_image_try fs path with
      | .error _ => .error (.runtimeError path)
      | .ok img => .ok img

/-- A buffer handed to `cv2.imshow`: either 3-channel or single-channel. -/
inductive Shown where
  | colour (i : Img3)
  | mono (m : Img1)

/-- Embeds `display_results` (segmentation_utils.py lines 228–247) as the
list of `cv2.imshow(window, buffer)` calls it performs, in order: the
`frame`/`original` if/elif chain for the "Original" window, then the
optional "Mask" and "Result" windows. -/
def display_results (original : Option Img3) (mask : Option Img1)
    (result : Option Img3) (frame : Option Img3) : List (String × Shown) :=
  (match frame, original with
   | some f, _ => [("Original", Shown.colour f)]
   | none, some o => [("Original", Shown.colour o)]
   | none, none => [])
  ++ (match mask with
      | some m => [("Mask", Shown.mono m)]
      | none => [])
  ++ (match result with
      | some r => [("Result", Shown.colour r)]
      | none => [])

/-- What `display_results` shows on the "Original" window. -/
def shownOnOriginal (original : Option Img3) (mask : Option Img1)
    (result : Option Img3) (frame : Option Img3) : Option Shown :=
  (display_results original mask result frame).lookup "Original"

/-- Does the computation end in a raised `ValueError`? -/
def isValueErrorResult : Except PyError Img3 → Bool
  | .error (.valueError _) => true
  | _ => false

/-- A concrete 100 × 100 all-black test frame. -/
def cimg100 : Img3 :=
  ⟨100, 100, fun _ _ => (0, 0, 0)⟩

/-- A concrete 1 × 1 test frame with one arbitrary BGR sample. -/
def wimg : Img3 :=
  ⟨1, 1, fun _ _ => (10, 20, 30)⟩

/-- A concrete 1024 × 768 all-black source frame (w = 1024, h = 768). -/
def src1024 : Img3 :=
  ⟨768, 1024, fun _ _ => (0, 0, 0)⟩

/-- A degenerate decoded buffer of numpy size 0. -/
def imgEmpty : Img3 :=
  ⟨0, 0, fun _ _ => (0, 0, 0)⟩

/-- A filesystem where no path exists. -/
def fsEmpty : FS :=
  ⟨fun _ => false, fun _ => false, fun _ => false, fun _ => none⟩

/-- A filesystem where every path is an accessible regular file decoding to
the 1 × 1 frame. -/
def fsTxt : FS :=
  ⟨fun _ => true, fun _ => true, fun _ => true, fun _ => some wimg⟩

/-- A filesystem where every path is an accessible regular file but every
decode fails (`cv2.imread` returns `None`). -/
def fsBadDecode : FS :=
  ⟨fun _ => true, fun _ => true, fun _ => true, fun _ => none⟩

/-- A filesystem where every path is an accessible regular file decoding to
a zero-size buffer. -/
def fsZeroSize : FS :=
  ⟨fun _ => true, fun _ => true, fun _ => true, fun _ => some imgEmpty⟩

/-- A filesystem where every path is an accessible regular file decoding to
the 1024 × 768 source frame. -/
def fsGood : FS :=
  ⟨fun _ => true, fun _ => true, fun _ => true, fun _ => some src1024⟩

/-- The buffer `load_image` produces from `src1024`. -/
def imgLoaded : Img3 :=
  resize_with_aspect_ratio src1024 (some 512) none

/-- A concrete 49 × 49 all-black source frame, on which double-precision
scaling and exact rational scaling disagree. -/
def src49 : Img3 :=
  ⟨49, 49, fun _ _ => (0, 0, 0)⟩

/-- A filesystem where every path is an accessible regular file decoding to
the 49 × 49 source frame. -/
def fs49 : FS :=
  ⟨fun _ => true, fun _ => true, fun _ => true, fun _ => some src49⟩

/-- The buffer `load_image` produces from `src49`. -/
def img49 : Img3 :=
  resize_with_aspect_ratio src49 (some 512) none

/-- Or-ing a natural number with 1 forces the low bit on. -/
lemma nat_lor_one (m : Nat) : m ||| 1 = 2 * (m / 2) + 1 := by
  apply Nat.eq_of_testBit_eq
  intro i
  cases i with
  | zero =>
      simp only [Nat.testBit_lor, Nat.testBit_zero]
      simp
      omega
  | succ i =>
      have h1 : Nat.testBit 1 (i + 1) = false := by
        simp [Nat.testBit_succ]
      rw [Nat.testBit_lor, h1, Bool.or_false, Nat.testBit_succ, Nat.testBit_succ]
      congr 1
      omega

/-- Clearing the low bit of a natural number via `Nat.ldiff` with 1. -/
lemma nat_ldiff_one (m : Nat) : Nat.ldiff m 1 = 2 * (m / 2) := by
  apply Nat.eq_of_testBit_eq
  intro i
  cases i with
  | zero =>
      have h0 := Nat.testBit_ldiff m 1 0
      simp only [Nat.testBit_zero] at h0 ⊢
      simp at h0 ⊢
      omega
  | succ i =>
      have h1 : Nat.testBit 1 (i + 1) = false := by
        simp [Nat.testBit_succ]
      rw [Nat.testBit_ldiff, h1, Bool.not_false, Bool.and_true,
        Nat.testBit_succ, Nat.testBit_succ]
      congr 1
      omega

/-- Two's-complement or with 1: the identity on odd integers, successor on
even integers — exactly Python's `value | 1`. -/
lemma int_lor_one (v : Int) : Int.lor v 1 = if v % 2 = 0 then v + 1 else v := by
  cases v with
  | ofNat m =>
      show Int.ofNat (m ||| 1) = _
      rw [nat_lor_one]
      rcases Nat.even_or_odd m with h | h <;>
        · rcases h with ⟨k, hk⟩
          subst hk
          simp [Int.ofNat_eq_natCast]
          omega
  | negSucc m =>
      show Int.negSucc (Nat.ldiff m 1) = _
      rw [nat_ldiff_one]
      rcases Nat.even_or_odd m with h | h <;>
        · rcases h with ⟨k, hk⟩
          subst hk
          simp [Int.negSucc_eq]
          omega

/-- Bitwise and of a natural number with itself is the identity. -/
lemma nat_land_self (n : Nat) : Nat.land n n = n :=
  Nat.eq_of_testBit_eq fun i => by
    rw [show Nat.land n n = n &&& n from rfl, Nat.testBit_and, Bool.and_self]

/-- Claim C7: `get_valid_kernel_size` is total over the integers and always
returns an odd integer that is at least 1; zero, negative and even inputs
are normalised rather than rejected. -/
theorem C7_kernel_size_odd_ge_one (v : Int) :
    Odd (get_valid_kernel_size v) ∧ 1 ≤ get_valid_kernel_size v := by
  unfold get_valid_kernel_size
  rw [int_lor_one, Int.odd_iff]
  simp only [max_def]
  split
  · split <;> constructor <;> omega
  · split <;> constructor <;> omega

/-- Claim C2 fails as stated: at the odd input v = 1 (which satisfies
v ≥ 1), `get_valid_kernel_size 1 = 1` while `get_valid_kernel_size 2 = 3`,
so adjacent inputs agree after an even v, not after an odd one. -/
theorem C2_counterexample :
    Odd (1 : Int) ∧ (1 : Int) ≤ 1 ∧
      get_valid_kernel_size 1 ≠ get_valid_kernel_size (1 + 1) :=
  ⟨⟨0, by decide⟩, by decide, by decide⟩

/-- Claim C2 (amended): `get_valid_kernel_size v = get_valid_kernel_size
(v + 1)` whenever `v` is even — an even input rounds up into the same odd
value as its successor; concretely `get_valid_kernel_size 4 = 5` and
`get_valid_kernel_size 5 = 5`. -/
theorem C2_kernel_adjacent_even (v : Int) (h : v % 2 = 0) :
    get_valid_kernel_size v = get_valid_kernel_size (v + 1) ∧
      get_valid_kernel_size 4 = 5 ∧ get_valid_kernel_size 5 = 5 := by
  refine ⟨?_, by decide, by decide⟩
  unfold get_valid_kernel_size
  rw [int_lor_one, int_lor_one]
  have h2 : ¬ (v + 1) % 2 = 0 := by omega
  simp [h, h2]

/-- The amended C2 equation instantiated at the even input 4. -/
theorem C2_kernel_adjacent_even_witness :
    (4 : Int) % 2 = 0 ∧
      get_valid_kernel_size 4 = get_valid_kernel_size (4 + 1) :=
  ⟨by decide, (C2_kernel_adjacent_even 4 (by decide)).1⟩

/-- Claim C6: the min/max normalisation step of `get_trackbar_values`
yields lower ≤ upper in every HSV channel and is symmetric under swapping
the two raw triplets. -/
theorem C6_bounds_ordered_symmetric (l_h l_s l_v u_h u_s u_v : Int) :
    (get_trackbar_values l_h l_s l_v u_h u_s u_v).1.1 ≤
      (get_trackbar_values l_h l_s l_v u_h u_s u_v).2.1 ∧
    (get_trackbar_values l_h l_s l_v u_h u_s u_v).1.2.1 ≤
      (get_trackbar_values l_h l_s l_v u_h u_s u_v).2.2.1 ∧
    (get_trackbar_values l_h l_s l_v u_h u_s u_v).1.2.2 ≤
      (get_trackbar_values l_h l_s l_v u_h u_s u_v).2.2.2 ∧
    get_trackbar_values l_h l_s l_v u_h u_s u_v =
      get_trackbar_values u_h u_s u_v l_h l_s l_v := by
  refine ⟨min_le_max, min_le_max, min_le_max, ?_⟩
  simp [get_trackbar_values, min_comm, max_comm]

/-- Claim C8: calling `resize_with_aspect_ratio` with neither target
dimension returns the input image unchanged. -/
theorem C8_resize_identity (image : Img3) :
    resize_with_aspect_ratio image none none = image :=
  rfl

/-- Claim C5 fails as stated: on the 100 × 100 frame with targetWidth = 50
and targetHeight = 10 both given, the output height is 50 (derived from the
width ratio), not the requested 10 — the axes are not scaled
independently. -/
theorem C5_counterexample :
    (resize_with_aspect_ratio cimg100 (some 50) (some 10)).h ≠ 10 ∧
    (resize_with_aspect_ratio cimg100 (some 50) (some 10)).w = 50 ∧
    (resize_with_aspect_ratio cimg100 (some 50) (some 10)).h = 50 :=
  ⟨by decide, rfl, rfl⟩

/-- Claim C5 (amended): when both target dimensions are given,
`resize_with_aspect_ratio` ignores the height argument entirely — the
output has width targetWidth, height `int(h * (targetWidth / float(w)))`
computed in double precision and derived from the width ratio alone, and
equals the result of passing only the width. -/
theorem C5_resize_both_given (image : Img3) (ww hh : Nat) (hw : 0 < image.w) :
    (resize_with_aspect_ratio image (some ww) (some hh)).w = ww ∧
    (resize_with_aspect_ratio image (some ww) (some hh)).h =
      pyScaled image.h ww image.w ∧
    resize_with_aspect_ratio image (some ww) (some hh) =
      resize_with_aspect_ratio image (some ww) none :=
  ⟨rfl, rfl, rfl⟩

/-- The amended C5 statement instantiated on the 100 × 100 frame with both
dimensions 50 and 10 given. -/
theorem C5_resize_both_given_witness :
    0 < cimg100.w ∧
    (resize_with_aspect_ratio cimg100 (some 50) (some 10)).w = 50 ∧
    (resize_with_aspect_ratio cimg100 (some 50) (some 10)).h = 50 :=
  have h := C5_resize_both_given cimg100 50 10 (by decide)
  ⟨by decide, h.1, h.2.1.trans (by decide)⟩

/-- Claim C1: for every 3-channel BGR frame, bound pair and kernel size,
the result buffer of `apply_mask` has the frame's dimensions and, at every
in-bounds pixel, equals the frame where the returned mask is 255 and is
black where the mask is 0. -/
theorem C1_result_through_mask (image : Img3) (lower upper : Int × Int × Int)
    (ksize : Int) (y x : Nat) (hy : y < image.h) (hx : x < image.w) :
    (apply_mask image lower upper ksize).2.h = image.h ∧
    (apply_mask image lower upper ksize).2.w = image.w ∧
    ((apply_mask image lower upper ksize).1.data y x = 255 →
      (apply_mask image lower upper ksize).2.data y x = image.data y x) ∧
    ((apply_mask image lower upper ksize).1.data y x = 0 →
      (apply_mask image lower upper ksize).2.data y x = (0, 0, 0)) := by
  refine ⟨rfl, rfl, ?_, ?_⟩
  · intro hm
    simp only [apply_mask, bitwise_and_masked] at hm ⊢
    rw [hm]
    simp [nat_land_self]
  · intro hm
    simp only [apply_mask, bitwise_and_masked] at hm ⊢
    rw [hm]
    simp

/-- The C1 guarantee instantiated on the concrete 1 × 1 frame at pixel
(0, 0) with full-range bounds and the default kernel size 5. -/
theorem C1_result_through_mask_witness :
    (apply_mask wimg (0, 0, 0) (255, 255, 255) 5).2.h = wimg.h ∧
    (apply_mask wimg (0, 0, 0) (255, 255, 255) 5).2.w = wimg.w ∧
    ((apply_mask wimg (0, 0, 0) (255, 255, 255) 5).1.data 0 0 = 255 →
      (apply_mask wimg (0, 0, 0) (255, 255, 255) 5).2.data 0 0 =
        wimg.data 0 0) ∧
    ((apply_mask wimg (0, 0, 0) (255, 255, 255) 5).1.data 0 0 = 0 →
      (apply_mask wimg (0, 0, 0) (255, 255, 255) 5).2.data 0 0 = (0, 0, 0)) :=
  C1_result_through_mask wimg (0, 0, 0) (255, 255, 255) 5 0 0
    (by decide) (by decide)

/-- Claim C4 fails as stated: `check_file_access` runs before the extension
check, so loading "notes.txt" when it does not exist raises
`FileNotFoundError`, not the claimed `ValueError`. -/
theorem C4_counterexample :
    isValueErrorResult (load_image fsEmpty "notes.txt") = false ∧
    load_image fsEmpty "notes.txt" =
      Except.error (PyError.fileNotFound "images/notes.txt") :=
  ⟨rfl, rfl⟩

/-- Claim C4 (amended): a filename without a supported image extension
raises `ValueError` provided it exists, is a regular file and is readable
(the access checks run first, so a missing "notes.txt" raises
`FileNotFoundError` instead); and an image-extension filename that does not
exist under the images root raises `FileNotFoundError`. -/
theorem C4_extension_and_missing (fs : FS) (p : String) :
    (fs.pathExists (joinPath "images" p) = true →
     fs.isfile (joinPath "images" p) = true →
     fs.readable (joinPath "images" p) = true →
     hasValidImageExt (joinPath "images" p) = false →
     load_image fs p = Except.error (PyError.valueError (joinPath "images" p))) ∧
    (fs.pathExists (joinPath "images" p) = false →
     load_image fs p =
       Except.error (PyError.fileNotFound (joinPath "images" p))) := by
  constructor
  · intro h1 h2 h3 h4
    simp [load_image, check_file_access, h1, h2, h3, h4]
  · intro h1
    simp [load_image, check_file_access, h1]

/-- The amended C4 statement instantiated: an existing, readable
"notes.txt" raises `ValueError`, and a missing "photo.png" raises
`FileNotFoundError`. -/
theorem C4_extension_and_missing_witness :
    load_image fsTxt "notes.txt" =
      Except.error (PyError.valueError "images/notes.txt") ∧
    load_image fsEmpty "photo.png" =
      Except.error (PyError.fileNotFound "images/photo.png") :=
  ⟨(C4_extension_and_missing fsTxt "notes.txt").1 rfl rfl rfl (by decide),
   (C4_extension_and_missing fsEmpty "photo.png").2 rfl⟩

/-- Claim C3 names a code bug: for an existing readable image-extension
path, a failed decode (`cv2.imread` → `None`) or a zero-size buffer makes
line 98 raise the intended `ValueError`, but the `except Exception` handler
at line 101 catches that very `ValueError` and re-raises it as
`RuntimeError`, contradicting the function's own docstring ("ValueError:
If the file format is unsupported or corrupted"). -/
theorem C3_decode_failure_wrapped :
    load_image fsBadDecode "photo.png" =
      Except.error (PyError.runtimeError "images/photo.png") ∧
    isValueErrorResult (load_image fsBadDecode "photo.png") = false ∧
    load_image fsZeroSize "photo.png" =
      Except.error (PyError.runtimeError "images/photo.png") ∧
    isValueErrorResult (load_image fsZeroSize "photo.png") = false :=
  ⟨rfl, rfl, rfl, rfl⟩

/-- Claim C9 fails as stated: a 49 × 49 source loads successfully, but the
returned height is `int(49 * (512 / 49.0)) = 511` under double-precision
arithmetic, not the exact truncated rational `49 * 512 / 49 = 512` the
claim specifies. -/
theorem C9_counterexample :
    load_image fs49 "photo.png" = Except.ok img49 ∧
    img49.w = 512 ∧ img49.h = 511 ∧
    src49.h * 512 / src49.w = 512 ∧
    img49.h ≠ src49.h * 512 / src49.w :=
  ⟨rfl, rfl, by decide, by decide, by decide⟩

/-- Claim C9 (amended): whenever `load_image` succeeds, the returned buffer
has width exactly 512 (the fixed working width of the ingestion path) and
height `int(h * (512 / float(w)))` computed from the decoded source
dimensions in double-precision arithmetic, which can fall one short of the
exact truncated ratio. -/
theorem C9_loaded_width_512 (fs : FS) (p : String) (src img : Img3)
    (hdec : fs.imread (joinPath "images" p) = some src)
    (hok : load_image fs p = Except.ok img) :
    img.w = 512 ∧ img.h = pyScaled src.h 512 src.w := by
  simp only [load_image] at hok
  cases hcfa : check_file_access fs (joinPath "images" p) with
  | error e =>
      rw [hcfa] at hok
      simp at hok
  | ok u =>
      rw [hcfa] at hok
      cases hext : hasValidImageExt (joinPath "images" p) with
      | false =>
          rw [hext] at hok
          simp at hok
      | true =>
          rw [hext] at hok
          simp only [load_image_try] at hok
          rw [hdec] at hok
          by_cases hsz : npSize src = 0
          · simp [hsz] at hok
          · simp [hsz] at hok
            subst hok
            exact ⟨rfl, rfl⟩

/-- The C9 dimension law instantiated on a 1024 × 768 decoded source: the
loaded buffer is 512 × 384. -/
theorem C9_loaded_width_512_witness :
    fsGood.imread (joinPath "images" "photo.png") = some src1024 ∧
    load_image fsGood "photo.png" = Except.ok imgLoaded ∧
    imgLoaded.w = 512 ∧ imgLoaded.h = 384 :=
  have h1 : fsGood.imread (joinPath "images" "photo.png") = some src1024 := rfl
  have h2 : load_image fsGood "photo.png" = Except.ok imgLoaded := rfl
  have h3 := C9_loaded_width_512 fsGood "photo.png" src1024 imgLoaded h1 h2
  ⟨h1, h2, h3.1, h3.2.trans (by decide)⟩

/-- Claim C10: when both `frame` and `original` are supplied,
`display_results` shows the frame on the "Original" window, and the
`original` argument is shown there only when `frame` is absent. -/
theorem C10_frame_precedence (o : Img3) (mask : Option Img1)
    (result : Option Img3) (f : Img3) :
    shownOnOriginal (some o) mask result (some f) = some (Shown.colour f) ∧
    shownOnOriginal (some o) mask result none = some (Shown.colour o) :=
  ⟨rfl, rfl⟩
